import Mathlib

/-!
Shallow embedding of the spawn-launcher subsystem of pytorch-lightning:
`pytorch_lightning/strategies/launchers/ddp_spawn.py` (DDPSpawnLauncher,
_FakeQueue, _SpawnOutput) and
`pytorch_lightning/strategies/launchers/tpu_spawn.py` (TPUSpawnLauncher).

Python dictionaries of metrics are modelled as association lists with
distinct-key update semantics; torch tensors and numpy arrays are modelled
by their numeric contents plus (for tensors) a device tag; side effects
(checkpoint saves/loads/removes, enqueues, barriers, sleeps) are modelled
as explicit event traces; exceptions are modelled with `Option`/`Except`.
-/

namespace PL

/-- `pytorch_lightning.trainer.states.TrainerFn` (the run phase). -/
inductive TrainerFn where
  | fitting
  | validating
  | testing
  | predicting
deriving DecidableEq, Repr

/-- `trainer.state` (a `TrainerState`): the run phase plus an opaque status. -/
structure TrainerState where
  fn : TrainerFn
  status : String
deriving DecidableEq, Repr

/-- A torch tensor: a device tag and its numeric contents. -/
structure Tensor where
  device : String
  data : List Int
deriving DecidableEq, Repr

/-- A numpy array: numeric contents only (host memory). -/
structure NDArray where
  data : List Int
deriving DecidableEq, Repr

/-- A value stored in `trainer.callback_metrics`: a tensor, a numpy array,
or a plain number. -/
inductive MVal where
  | tens (t : Tensor)
  | arr (a : NDArray)
  | num (n : Int)
deriving DecidableEq, Repr

/-- The numeric content of a metrics value, ignoring representation
(tensor vs numpy array vs scalar) and device. -/
def MVal.numData : MVal → List Int
  | .tens t => t.data
  | .arr a => a.data
  | .num n => [n]

/-- A metrics dictionary: an association list of string keys to values. -/
abbrev Metrics := List (String × MVal)

/-- `x.cpu().numpy()`: a tensor moved to host and viewed as a numpy array;
the numeric contents are preserved. -/
def tensorToNumpy (t : Tensor) : NDArray := ⟨t.data⟩

/-- `torch.tensor(x)` on a numpy array: a host tensor with the same
numeric contents. -/
def numpyToTensor (a : NDArray) : Tensor := ⟨"cpu", a.data⟩

/-- `apply_to_collection(d, torch.Tensor, f)` over a metrics dict:
maps `f` over tensor-valued entries, leaves the rest unchanged. -/
def applyToTensors (f : Tensor → MVal) (m : Metrics) : Metrics :=
  m.map (fun p => (p.1, match p.2 with | .tens t => f t | v => v))

/-- `apply_to_collection(d, np.ndarray, f)` over a metrics dict:
maps `f` over numpy-array-valued entries, leaves the rest unchanged. -/
def applyToArrays (f : NDArray → MVal) (m : Metrics) : Metrics :=
  m.map (fun p => (p.1, match p.2 with | .arr a => f a | v => v))

/-- `d[k] = v` on a Python dict modelled as an association list:
replace the value at an existing key, else append the new binding. -/
def setKey (m : Metrics) (k : String) (v : MVal) : Metrics :=
  if m.any (fun p => p.1 == k) then
    m.map (fun p => if p.1 == k then (p.1, v) else p)
  else
    m ++ [(k, v)]

/-- `d.update(other)` on Python dicts: later entries overwrite
same-keyed earlier entries. -/
def dictUpdate (m other : Metrics) : Metrics :=
  other.foldl (fun acc p => setKey acc p.1 p.2) m

/-- `_FakeQueue` (a `UserList`): an ordered append/pop-front sequence.
Items in this subsystem are metrics dictionaries. -/
abbrev FakeQueue := List Metrics

/-- `_FakeQueue.get`, i.e. `self.pop(0)`: pop the front item; on an empty
queue Python raises `IndexError: pop from empty list`, modelled as `none`. -/
def FakeQueue.get : FakeQueue → Option (Metrics × FakeQueue)
  | [] => none
  | x :: xs => some (x, xs)

/-- `_FakeQueue.put`: append the item at the back. -/
def FakeQueue.put (q : FakeQueue) (item : Metrics) : FakeQueue := q ++ [item]

/-- `_FakeQueue.empty`: whether the queue holds no items. -/
def FakeQueue.isEmptyQ (q : FakeQueue) : Bool := List.isEmpty q

/-- The tensor-to-numpy conversion performed by the default collector
`DDPSpawnLauncher.add_to_queue` on the callback metrics. -/
def encodeMetrics (m : Metrics) : Metrics :=
  applyToTensors (fun t => MVal.arr (tensorToNumpy t)) m

/-- The numpy-to-tensor conversion performed by the default restorer
`DDPSpawnLauncher.get_from_queue` on the received dictionary. -/
def decodeMetrics (m : Metrics) : Metrics :=
  applyToArrays (fun a => MVal.tens (numpyToTensor a)) m

/-- The orchestrator/worker context: the fields of `trainer`, its
`strategy` and its `lightning_module` that this subsystem reads and
writes.  The optional overrides model `is_overridden("add_to_queue", ...)`
/ `is_overridden("get_from_queue", ...)` together with the overriding
method itself (which receives the queue and may push/pop items). -/
structure Trainer where
  global_rank : Nat
  local_rank : Nat
  state : TrainerState
  has_checkpoint_callback : Bool
  best_model_path : Option String
  default_root_dir : String
  callback_metrics : Metrics
  module_state_dict : List Int
  add_override : Option (FakeQueue → FakeQueue)
  get_override : Option (FakeQueue → FakeQueue)

/-- `DDPSpawnLauncher.add_to_queue`: encode the callback metrics
(tensors become numpy arrays) and put the resulting dict on the queue. -/
def add_to_queue (callback_metrics : Metrics) (q : FakeQueue) : FakeQueue :=
  q.put (encodeMetrics callback_metrics)

/-- `DDPSpawnLauncher.get_from_queue`: pop the front dict from the queue
(raising if empty, modelled as `none`), decode it (numpy arrays become
tensors) and merge it into the live callback metrics via `dict.update`.
Returns the updated metrics and the remaining queue. -/
def get_from_queue (callback_metrics : Metrics) (q : FakeQueue) :
    Option (Metrics × FakeQueue) :=
  match q.get with
  | none => none
  | some (d, q') => some (dictUpdate callback_metrics (decodeMetrics d), q')

/-- The side effects this subsystem performs, recorded as a trace. -/
inductive Event where
  | computeStateDict (sd : List Int)
  | saveCheckpoint (sd : List Int) (path : String)
  | loadCheckpoint (path : String)
  | loadStateDict (sd : List Int)
  | removeCheckpoint (path : String)
  | workerSetup (idx : Nat)
  | runFunction
  | enqueue
  | barrier (name : String)
  | sleepSecs (n : Nat)
  | legacyAddHook
  | legacyGetHook
  | defaultGetFromQueue
deriving DecidableEq, Repr

/-- An opaque user result: a device tag plus opaque numeric content,
so that `move_data_to_device(·, "cpu")` is observable. -/
structure Value where
  device : String
  content : Int
deriving DecidableEq, Repr

/-- `move_data_to_device(v, "cpu")` on a user result: the content is
unchanged, the value now resides on host. -/
def moveValueToCpu (v : Value) : Value := { v with device := "cpu" }

/-- `_SpawnOutput` (a NamedTuple). -/
structure SpawnOutput where
  best_model_path : Option String
  weights_path : Option String
  trainer_state : TrainerState
  trainer_results : Value
  extra : FakeQueue
deriving DecidableEq

/-- The queue population shared by both builders: start from an empty
`_FakeQueue`, run the legacy `add_to_queue` override if present, then the
default collector. -/
def buildExtra (t : Trainer) : List Event × FakeQueue :=
  let extra0 : FakeQueue := []
  let (evA, extra1) :=
    match t.add_override with
    | some f => ([Event.legacyAddHook], f extra0)
    | none => ([], extra0)
  (evA, add_to_queue t.callback_metrics extra1)

/-- `DDPSpawnLauncher._collect_rank_zero_results`: read the best model
path, compute the state dict on every process, bail out on non-zero
global rank, save the last weights when fitting, populate the extra
queue, and return the `_SpawnOutput`.  Returns the event trace and the
optional output (`none` models Python's bare `return`). -/
def collectDDP (t : Trainer) (results : Value) :
    List Event × Option SpawnOutput :=
  let best := if t.has_checkpoint_callback then t.best_model_path else none
  let sd := t.module_state_dict
  let ev0 := [Event.computeStateDict sd]
  if t.global_rank ≠ 0 then
    (ev0, none)
  else
    let (evW, weights_path) :=
      if t.state.fn = TrainerFn.fitting then
        let wp := t.default_root_dir ++ "/.temp.ckpt"
        ([Event.saveCheckpoint sd wp], some wp)
      else
        ([], none)
    let (evQ, extra) := buildExtra t
    (ev0 ++ evW ++ evQ, some ⟨best, weights_path, t.state, results, extra⟩)

/-- `TPUSpawnLauncher._collect_rank_zero_results`: same ingredients, but
the last-weights save happens BEFORE the rank check, and the rank check
uses the LOCAL rank (separate filesystems per VM in pod training). -/
def collectTPU (t : Trainer) (results : Value) :
    List Event × Option SpawnOutput :=
  let best := if t.has_checkpoint_callback then t.best_model_path else none
  let sd := t.module_state_dict
  let ev0 := [Event.computeStateDict sd]
  let (evW, weights_path) :=
    if t.state.fn = TrainerFn.fitting then
      let wp := t.default_root_dir ++ "/.temp.ckpt"
      ([Event.saveCheckpoint sd wp], some wp)
    else
      ([], none)
  if t.local_rank ≠ 0 then
    (ev0 ++ evW, none)
  else
    let (evQ, extra) := buildExtra t
    (ev0 ++ evW ++ evQ, some ⟨best, weights_path, t.state, results, extra⟩)

/-- The checkpoint collaborator (`trainer.strategy.checkpoint_io`):
`load_checkpoint` may fail (an exception, modelled as `none`). -/
structure CheckpointIO where
  load_result : String → Option (List Int)

/-- Failures that can propagate out of
`_recover_results_in_main_process`. -/
inductive RecoverError where
  | loadFailed
  | queueEmptyOnGet
  | notASpawnOutput
deriving DecidableEq, Repr

/-- The tail of `_recover_results_in_main_process` after the optional
weights reload: restore `trainer.state`, run the legacy `get_from_queue`
override if present, then the default restorer.  Returns the remaining
queue so that drained-ness is observable. -/
def recoverTail (t : Trainer) (o : SpawnOutput) (q : FakeQueue) :
    List Event × Except RecoverError (Trainer × FakeQueue) :=
  let t1 := { t with state := o.trainer_state }
  let (evL, q1) :=
    match t1.get_override with
    | some f => ([Event.legacyGetHook], f q)
    | none => ([], q)
  match get_from_queue t1.callback_metrics q1 with
  | none => (evL, Except.error RecoverError.queueEmptyOnGet)
  | some (m, q2) =>
      (evL ++ [Event.defaultGetFromQueue],
       Except.ok ({ t1 with callback_metrics := m }, q2))

/-- The first step of `_recover_results_in_main_process`: transfer the
best model path back to the trainer's checkpoint callback, if there is
one. -/
def recoverBest (t : Trainer) (o : SpawnOutput) : Trainer :=
  if t.has_checkpoint_callback then
    { t with best_model_path := o.best_model_path }
  else t

/-- `DDPSpawnLauncher._recover_results_in_main_process`: restore the best
model path, then — when `weights_path` is present — load the checkpoint,
apply it to the live model, and remove the temporary artifact, in that
order; a failed load propagates and nothing after it runs.  Finally
restore the trainer state and the callback metrics. -/
def recover (io : CheckpointIO) (t : Trainer) (o : SpawnOutput) :
    List Event × Except RecoverError (Trainer × FakeQueue) :=
  let t1 := recoverBest t o
  match o.weights_path with
  | none => recoverTail t1 o o.extra
  | some wp =>
    match io.load_result wp with
    | none => ([Event.loadCheckpoint wp], Except.error RecoverError.loadFailed)
    | some ckpt =>
      let t2 := { t1 with module_state_dict := ckpt }
      let tail := recoverTail t2 o o.extra
      ([Event.loadCheckpoint wp, Event.loadStateDict ckpt,
        Event.removeCheckpoint wp] ++ tail.1, tail.2)

/-- What gets written onto the `SimpleQueue` (the Result Channel): the raw
user result when no trainer was supplied, or the builder's optional
`_SpawnOutput` when one was. -/
inductive Payload where
  | raw (v : Value)
  | spawn (o : Option SpawnOutput)

/-- `move_data_to_device(results, "cpu")` on the payload: only the
tensor-like parts (the user result inside) are moved to host. -/
def movePayloadToCpu : Payload → Payload
  | .raw v => .raw (moveValueToCpu v)
  | .spawn none => .spawn none
  | .spawn (some o) =>
      .spawn (some { o with trainer_results := moveValueToCpu o.trainer_results })

/-- `DDPSpawnLauncher._wrapped_function` run inside process `process_idx`:
per-process setup, run the user function, collect rank-zero results when a
trainer is present, and put the payload on the return queue only when
this process's local rank is 0.  Returns the event trace and the list of
writes this process performs on the Result Channel. -/
def wrappedDDP (process_idx : Nat) (local_rank : Nat) (trainer : Option Trainer)
    (fres : Value) : List Event × List Payload :=
  let ev0 := [Event.workerSetup process_idx, Event.runFunction]
  let (evC, results) :=
    match trainer with
    | some t =>
        let (e, o) := collectDDP t fres
        (e, Payload.spawn o)
    | none => ([], Payload.raw fres)
  if local_rank = 0 then
    (ev0 ++ evC ++ [Event.enqueue], [movePayloadToCpu results])
  else
    (ev0 ++ evC, [])

/-- `TPUSpawnLauncher._wrapped_function`: as the DDP one (with the TPU
builder), then every process passes the "end-process" barrier, and the
local-rank-0 process additionally sleeps 2 seconds before exiting. -/
def wrappedTPU (process_idx : Nat) (local_rank : Nat) (trainer : Option Trainer)
    (fres : Value) : List Event × List Payload :=
  let ev0 := [Event.workerSetup process_idx, Event.runFunction]
  let (evC, results) :=
    match trainer with
    | some t =>
        let (e, o) := collectTPU t fres
        (e, Payload.spawn o)
    | none => ([], Payload.raw fres)
  let (evQ, writes) :=
    if local_rank = 0 then ([Event.enqueue], [movePayloadToCpu results])
    else ([], [])
  let evB := [Event.barrier "end-process"]
  let evS := if local_rank = 0 then [Event.sleepSecs 2] else []
  (ev0 ++ evC ++ evQ ++ evB ++ evS, writes)

/-- All writes performed on the shared Result Channel during one launch of
`n` worker processes: process `i` has local rank `lr i` and (when an
orchestrator context is supplied) trainer copy `tr i`; its user function
returns `f i`. -/
def allWrites (n : Nat) (lr : Nat → Nat) (tr : Nat → Option Trainer)
    (f : Nat → Value) : List Payload :=
  (List.range n).flatMap (fun i => (wrappedDDP i (lr i) (tr i) (f i)).2)

/-- All writes performed on the shared Result Channel during one launch of
the barrier (pod/TPU) variant. -/
def allWritesTPU (n : Nat) (lr : Nat → Nat) (tr : Nat → Option Trainer)
    (f : Nat → Value) : List Payload :=
  (List.range n).flatMap (fun i => (wrappedTPU i (lr i) (tr i) (f i)).2)

/-- The outcome of `DDPSpawnLauncher.launch` as observed by the caller. -/
inductive LaunchOutcome where
  | blocksForever
  | raw (p : Payload)
  | recovered (r : Except RecoverError Value)

/-- `DDPSpawnLauncher.launch`: spawn `n` workers, block on one
`return_queue.get()` (blocking forever if nothing is ever written), return
the received value raw when no trainer was supplied, otherwise run
Recovery and return the `trainer_results` field.  Reading a non-spawn
payload with a trainer present, or a `none` spawn payload, makes Recovery
fail on attribute access, modelled as `RecoverError.notASpawnOutput`; the
orchestrator-side trainer is `otrainer` when supplied. -/
def launchDDP (io : CheckpointIO) (n : Nat) (lr : Nat → Nat)
    (otrainer : Option Trainer) (tr : Nat → Trainer)
    (f : Nat → Value) : LaunchOutcome :=
  match (allWrites n lr (fun i => otrainer.map (fun _ => tr i)) f).head? with
  | none => LaunchOutcome.blocksForever
  | some p =>
    match otrainer with
    | none => LaunchOutcome.raw p
    | some t =>
      match p with
      | Payload.spawn (some o) =>
          LaunchOutcome.recovered ((recover io t o).2.map (fun _ => o.trainer_results))
      | _ => LaunchOutcome.recovered (Except.error RecoverError.notASpawnOutput)

/-- A sample metrics dictionary with a device-resident tensor metric. -/
def metrics0 : Metrics := [("acc", MVal.tens ⟨"cuda:0", [9]⟩), ("loss", MVal.num 3)]

/-- A sample user result residing on host. -/
def v0 : Value := ⟨"cpu", 42⟩

/-- A baseline trainer copy at global and local rank 0, in the fitting
phase, with no legacy overrides. -/
def trainer0 : Trainer :=
  { global_rank := 0
    local_rank := 0
    state := ⟨TrainerFn.fitting, "finished"⟩
    has_checkpoint_callback := true
    best_model_path := some "best.ckpt"
    default_root_dir := "root"
    callback_metrics := metrics0
    module_state_dict := [1, 2]
    add_override := none
    get_override := none }

/-- A pod worker on a second VM: local rank 0 but nonzero global rank. -/
def trainerTPUSecondHost : Trainer :=
  { trainer0 with global_rank := 4, local_rank := 0 }

/-- A pod worker that fails the barrier variant's rank check. -/
def trainerTPUNonZero : Trainer :=
  { trainer0 with global_rank := 5, local_rank := 1 }

/-- A DDP worker at nonzero global rank. -/
def trainerDDPNonZero : Trainer :=
  { trainer0 with global_rank := 2, local_rank := 2 }

/-- A trainer outside the fitting phase. -/
def trainerValidating : Trainer :=
  { trainer0 with state := ⟨TrainerFn.validating, "finished"⟩ }

/-- A legacy `add_to_queue` override pushing one extra dictionary. -/
def legacyAddOne (q : FakeQueue) : FakeQueue := q.put [("legacy", MVal.num 7)]

/-- A trainer whose model overrides `add_to_queue` but not
`get_from_queue`. -/
def trainerLegacyAdd : Trainer := { trainer0 with add_override := some legacyAddOne }

/-- A checkpoint collaborator whose loads always succeed. -/
def ioOk : CheckpointIO := ⟨fun _ => some [5, 6]⟩

/-- A checkpoint collaborator whose loads always fail. -/
def ioFail : CheckpointIO := ⟨fun _ => none⟩

/-- The output the DDP builder produces for `trainerValidating`. -/
def outValidating : SpawnOutput :=
  ⟨some "best.ckpt", none, ⟨TrainerFn.validating, "finished"⟩, v0,
   [encodeMetrics metrics0]⟩

/-- The output the DDP builder produces for `trainer0` (fitting phase). -/
def outFitting : SpawnOutput :=
  ⟨some "best.ckpt", some "root/.temp.ckpt", ⟨TrainerFn.fitting, "finished"⟩,
   v0, [encodeMetrics metrics0]⟩

/-- The orchestrator's trainer after recovering `outFitting` into
`trainer0` with `ioOk`. -/
def trainerAfterRecover : Trainer :=
  { trainer0 with
      module_state_dict := [5, 6]
      callback_metrics := dictUpdate metrics0 (decodeMetrics (encodeMetrics metrics0)) }

/-- The `results` value a DDP worker holds right before its enqueue
decision: the raw user result without a trainer, the builder's output
with one. -/
def payloadOfDDP (tr : Option Trainer) (v : Value) : Payload :=
  match tr with
  | some t => Payload.spawn (collectDDP t v).2
  | none => Payload.raw v

/-- The `results` value a pod/TPU worker holds right before its enqueue
decision. -/
def payloadOfTPU (tr : Option Trainer) (v : Value) : Payload :=
  match tr with
  | some t => Payload.spawn (collectTPU t v).2
  | none => Payload.raw v

section Lemmas

/-- The writes of one DDP worker: exactly one payload when its local rank
is 0, none otherwise. -/
theorem wrappedDDP_writes (i l : Nat) (tr : Option Trainer) (v : Value) :
    (wrappedDDP i l tr v).2 =
      if l = 0 then [movePayloadToCpu (payloadOfDDP tr v)] else [] := by
  cases tr <;> by_cases h : l = 0 <;>
    simp [wrappedDDP, payloadOfDDP, h]

/-- The writes of one pod/TPU worker: exactly one payload when its local
rank is 0, none otherwise. -/
theorem wrappedTPU_writes (i l : Nat) (tr : Option Trainer) (v : Value) :
    (wrappedTPU i l tr v).2 =
      if l = 0 then [movePayloadToCpu (payloadOfTPU tr v)] else [] := by
  cases tr <;> by_cases h : l = 0 <;>
    simp [wrappedTPU, payloadOfTPU, h]

/-- Flattening singleton-or-empty blocks is filtering then mapping. -/
theorem flatMap_ite_singleton {α : Type} (l : List Nat) (p : Nat → Prop)
    [DecidablePred p] (u : Nat → α) :
    (l.flatMap fun i => if p i then [u i] else []) =
      (l.filter (fun i => decide (p i))).map u := by
  induction l with
  | nil => rfl
  | cons a l ih => by_cases h : p a <;> simp [h, ih]

/-- On a duplicate-free list, filtering by a predicate that holds at
exactly one member yields that singleton. -/
theorem filter_eq_singleton_of_nodup {l : List Nat} {i0 : Nat} (p : Nat → Prop)
    [DecidablePred p] (hnd : l.Nodup) (hmem : i0 ∈ l) (hp : p i0)
    (hu : ∀ i ∈ l, p i → i = i0) :
    l.filter (fun i => decide (p i)) = [i0] := by
  induction l with
  | nil => cases hmem
  | cons a l ih =>
    rcases List.nodup_cons.mp hnd with ⟨ha, hnd'⟩
    by_cases hpa : p a
    · have haeq : a = i0 := hu a (List.mem_cons_self a l) hpa
      subst haeq
      have hnil : l.filter (fun i => decide (p i)) = [] := by
        rw [List.filter_eq_nil_iff]
        intro b hb
        simp only [decide_eq_true_eq]
        intro hpb
        exact ha ((hu b (List.mem_cons_of_mem _ hb) hpb) ▸ hb)
      simp [hpa, hnil]
    · have hmem' : i0 ∈ l := by
        rcases List.mem_cons.mp hmem with h | h
        · exact absurd (h ▸ hp) hpa
        · exact h
      simpa [hpa] using
        ih hnd' hmem' (fun i hi hpi => hu i (List.mem_cons_of_mem _ hi) hpi)

/-- The pod/TPU builder never enqueues, arrives at a barrier, or sleeps. -/
theorem collectTPU_no_sync_events (t : Trainer) (v : Value) :
    Event.enqueue ∉ (collectTPU t v).1 ∧
    (∀ s, Event.barrier s ∉ (collectTPU t v).1) ∧
    (∀ k, Event.sleepSecs k ∉ (collectTPU t v).1) := by
  unfold collectTPU buildExtra
  by_cases hf : t.state.fn = TrainerFn.fitting <;>
    by_cases hl : t.local_rank ≠ 0 <;>
    cases t.add_override <;>
    simp [hf, hl]

/-- A successful recovery tail does not touch the module's parameters. -/
theorem recoverTail_state_dict {t : Trainer} {o : SpawnOutput} {q : FakeQueue}
    {t' : Trainer} {q' : FakeQueue}
    (h : (recoverTail t o q).2 = Except.ok (t', q')) :
    t'.module_state_dict = t.module_state_dict := by
  unfold recoverTail at h
  cases hg : t.get_override with
  | none =>
    simp only [hg] at h
    rcases hq : get_from_queue t.callback_metrics q with _ | ⟨m, q2⟩ <;>
      simp [hq] at h
    rw [← h.1]
  | some f =>
    simp only [hg] at h
    rcases hq : get_from_queue t.callback_metrics (f q) with _ | ⟨m, q2⟩ <;>
      simp [hq] at h
    rw [← h.1]

/-- The recovery tail never loads a checkpoint, applies a state dict, or
removes an artifact. -/
theorem recoverTail_no_ckpt_events (t : Trainer) (o : SpawnOutput) (q : FakeQueue) :
    (∀ p, Event.loadCheckpoint p ∉ (recoverTail t o q).1) ∧
    (∀ sd, Event.loadStateDict sd ∉ (recoverTail t o q).1) ∧
    (∀ p, Event.removeCheckpoint p ∉ (recoverTail t o q).1) := by
  unfold recoverTail
  cases hg : t.get_override with
  | none =>
    simp only [hg]
    rcases get_from_queue t.callback_metrics q with _ | ⟨m, q2⟩ <;> simp
  | some f =>
    simp only [hg]
    rcases get_from_queue t.callback_metrics (f q) with _ | ⟨m, q2⟩ <;> simp

/-- The default restorer leaves exactly the tail of the queue it read. -/
theorem get_from_queue_tail {m : Metrics} {q : FakeQueue}
    {r : Metrics × FakeQueue} (h : get_from_queue m q = some r) :
    r.2 = q.tail := by
  cases q with
  | nil => simp [get_from_queue, FakeQueue.get] at h
  | cons d rest =>
    simp [get_from_queue, FakeQueue.get] at h
    rw [← h]
    rfl

/-- With no legacy `get_from_queue` override, a successful recovery tail
leaves exactly the tail of the incoming queue. -/
theorem recoverTail_leftover {t : Trainer} {o : SpawnOutput} {q : FakeQueue}
    {t' : Trainer} {q' : FakeQueue} (hg : t.get_override = none)
    (h : (recoverTail t o q).2 = Except.ok (t', q')) : q' = q.tail := by
  unfold recoverTail at h
  simp only [hg] at h
  rcases hq : get_from_queue t.callback_metrics q with _ | ⟨m, q2⟩ <;>
    simp [hq] at h
  rw [← h.2]
  exact get_from_queue_tail hq

/-- Restoring the best model path never changes the legacy override
slots. -/
theorem recoverBest_get_override (t : Trainer) (o : SpawnOutput) :
    (recoverBest t o).get_override = t.get_override := by
  unfold recoverBest
  by_cases hc : t.has_checkpoint_callback <;> simp [hc]

/-- `recover` on an output with no weights path is just its tail step. -/
theorem recover_eq_none {io : CheckpointIO} {t : Trainer} {o : SpawnOutput}
    (hw : o.weights_path = none) :
    recover io t o = recoverTail (recoverBest t o) o o.extra := by
  unfold recover
  rw [hw]

/-- `recover` on a failing checkpoint load: one load attempt, then the
error propagates. -/
theorem recover_eq_fail {io : CheckpointIO} {t : Trainer} {o : SpawnOutput}
    {wp : String} (hw : o.weights_path = some wp)
    (hl : io.load_result wp = none) :
    recover io t o =
      ([Event.loadCheckpoint wp], Except.error RecoverError.loadFailed) := by
  unfold recover
  rw [hw]
  dsimp only
  rw [hl]

/-- `recover` on a successful checkpoint load: load, apply, remove, then
the tail step on the trainer carrying the loaded parameters. -/
theorem recover_eq_ok {io : CheckpointIO} {t : Trainer} {o : SpawnOutput}
    {wp : String} {ckpt : List Int} (hw : o.weights_path = some wp)
    (hl : io.load_result wp = some ckpt) :
    recover io t o =
      ([Event.loadCheckpoint wp, Event.loadStateDict ckpt,
        Event.removeCheckpoint wp] ++
         (recoverTail { recoverBest t o with module_state_dict := ckpt } o o.extra).1,
       (recoverTail { recoverBest t o with module_state_dict := ckpt } o o.extra).2) := by
  unfold recover
  rw [hw]
  dsimp only
  rw [hl]

/-- With no legacy `get_from_queue` override, a successful recovery
leaves exactly the tail of `metrics_extra`: the default restorer popped
one entry, not all of them. -/
theorem recover_ok_leftover {io : CheckpointIO} {t : Trainer}
    {o : SpawnOutput} {t' : Trainer} {q' : FakeQueue}
    (hg : t.get_override = none)
    (h : (recover io t o).2 = Except.ok (t', q')) : q' = o.extra.tail := by
  rcases hw : o.weights_path with _ | wp
  · rw [@recover_eq_none io t o hw] at h
    exact recoverTail_leftover ((recoverBest_get_override t o).trans hg) h
  · rcases hl : io.load_result wp with _ | ckpt
    · rw [recover_eq_fail hw hl] at h
      simp at h
    · rw [recover_eq_ok hw hl] at h
      refine recoverTail_leftover ?_ h
      simpa using (recoverBest_get_override t o).trans hg

/-- Encoding then decoding preserves the key sequence of a metrics dict. -/
theorem decode_encode_keys (m : Metrics) :
    (decodeMetrics (encodeMetrics m)).map Prod.fst = m.map Prod.fst := by
  simp [decodeMetrics, encodeMetrics, applyToTensors, applyToArrays,
        List.map_map]

/-- Encoding then decoding relates the dict entrywise: same key, same
numeric content. -/
theorem decode_encode_entries (m : Metrics) :
    List.Forall₂ (fun p q => p.1 = q.1 ∧ MVal.numData p.2 = MVal.numData q.2)
      (decodeMetrics (encodeMetrics m)) m := by
  induction m with
  | nil => exact List.Forall₂.nil
  | cons p m ih =>
    rcases p with ⟨k, v⟩
    refine List.Forall₂.cons ?_ ?_
    · cases v <;>
        simp [decodeMetrics, encodeMetrics, applyToTensors, applyToArrays,
              MVal.numData, tensorToNumpy, numpyToTensor]
    · exact ih

end Lemmas

/-- C2 (counterexample): in the barrier (TPU) variant, a process whose
global rank is not 0 but whose local rank is 0 — a rank-0 worker on a
second pod VM — returns a populated `SpawnOutput`, so it is false that in
both variants every process with nonzero global rank returns nothing. -/
theorem C2_counterexample :
    trainerTPUSecondHost.global_rank ≠ 0 ∧
    ((collectTPU trainerTPUSecondHost v0).2).isSome = true :=
  ⟨by decide, rfl⟩

/-- C2 (amended): the native (DDP) builder returns nothing exactly when
the GLOBAL rank is nonzero, while the barrier (TPU) builder returns
nothing exactly when the LOCAL rank is nonzero; in each variant only the
process passing its own rank check can return a populated `SpawnOutput`. -/
theorem C2_amended_rank_gates :
    (∀ t v, t.global_rank ≠ 0 → (collectDDP t v).2 = none) ∧
    (∀ t v, ((collectDDP t v).2).isSome = true → t.global_rank = 0) ∧
    (∀ t v, t.local_rank ≠ 0 → (collectTPU t v).2 = none) ∧
    (∀ t v, ((collectTPU t v).2).isSome = true → t.local_rank = 0) := by
  refine ⟨?_, ?_, ?_, ?_⟩
  · intro t v h
    simp [collectDDP, h]
  · intro t v h
    by_contra hne
    simp [collectDDP, hne] at h
  · intro t v h
    unfold collectTPU
    by_cases hf : t.state.fn = TrainerFn.fitting <;> simp [hf, h]
  · intro t v h
    by_contra hne
    unfold collectTPU at h
    by_cases hf : t.state.fn = TrainerFn.fitting <;> simp [hf, hne] at h

/-- C2 witness: the amended gates at the concrete nonzero-rank workers. -/
theorem C2_amended_rank_gates_witness :
    (collectDDP trainerDDPNonZero v0).2 = none ∧
    (collectTPU trainerTPUNonZero v0).2 = none :=
  ⟨C2_amended_rank_gates.1 trainerDDPNonZero v0 (by decide),
   C2_amended_rank_gates.2.2.1 trainerTPUNonZero v0 (by decide)⟩

/-- C4 (counterexample): in the barrier (TPU) variant, a worker that
fails the rank check (local rank 1, global rank 5) — and hence returns
nothing — still serializes the parameter snapshot to the temporary
last-weights artifact while fitting, so it is false that only the process
passing the rank check writes the artifact. -/
theorem C4_counterexample :
    (collectTPU trainerTPUNonZero v0).2 = none ∧
    Event.saveCheckpoint trainerTPUNonZero.module_state_dict "root/.temp.ckpt"
      ∈ (collectTPU trainerTPUNonZero v0).1 :=
  ⟨rfl, by decide⟩

/-- C4 (amended): both builders compute the full parameter snapshot
before their rank check (it is the first emitted effect on every
process); in the native (DDP) variant the snapshot is serialized (when
fitting) only on the global-rank-0 process and never on others, while in
the barrier (TPU) variant every fitting process serializes it, before
the local-rank check. -/
theorem C4_amended_snapshot_serialization :
    (∀ t v, ((collectDDP t v).1).head? =
       some (Event.computeStateDict t.module_state_dict)) ∧
    (∀ t v, ((collectTPU t v).1).head? =
       some (Event.computeStateDict t.module_state_dict)) ∧
    (∀ t v, t.global_rank ≠ 0 →
       ∀ sd p, Event.saveCheckpoint sd p ∉ (collectDDP t v).1) ∧
    (∀ t v, t.state.fn = TrainerFn.fitting →
       Event.saveCheckpoint t.module_state_dict (t.default_root_dir ++ "/.temp.ckpt")
         ∈ (collectTPU t v).1) ∧
    (∀ t v, t.global_rank = 0 → t.state.fn = TrainerFn.fitting →
       Event.saveCheckpoint t.module_state_dict (t.default_root_dir ++ "/.temp.ckpt")
         ∈ (collectDDP t v).1) := by
  refine ⟨?_, ?_, ?_, ?_, ?_⟩
  · intro t v
    unfold collectDDP
    by_cases hg : t.global_rank ≠ 0 <;> simp [hg]
  · intro t v
    unfold collectTPU
    by_cases hf : t.state.fn = TrainerFn.fitting <;>
      by_cases hl : t.local_rank ≠ 0 <;> simp [hf, hl]
  · intro t v hg sd p
    simp [collectDDP, hg]
  · intro t v hf
    unfold collectTPU
    by_cases hl : t.local_rank ≠ 0 <;> simp [hf, hl]
  · intro t v hg hf
    have hg' : ¬ t.global_rank ≠ 0 := by simp [hg]
    simp [collectDDP, hg', hf]

/-- C4 witness: the amended statement at concrete workers — the failing
TPU worker saves while fitting, the nonzero-rank DDP worker never
saves, the rank-0 DDP worker saves. -/
theorem C4_amended_snapshot_serialization_witness :
    Event.saveCheckpoint trainerTPUNonZero.module_state_dict
        (trainerTPUNonZero.default_root_dir ++ "/.temp.ckpt")
      ∈ (collectTPU trainerTPUNonZero v0).1 ∧
    Event.saveCheckpoint [1, 2] "root/.temp.ckpt" ∉ (collectDDP trainerDDPNonZero v0).1 ∧
    Event.saveCheckpoint trainer0.module_state_dict
        (trainer0.default_root_dir ++ "/.temp.ckpt")
      ∈ (collectDDP trainer0 v0).1 :=
  ⟨C4_amended_snapshot_serialization.2.2.2.1 trainerTPUNonZero v0 (by decide),
   C4_amended_snapshot_serialization.2.2.1 trainerDDPNonZero v0 (by decide)
     [1, 2] "root/.temp.ckpt",
   C4_amended_snapshot_serialization.2.2.2.2 trainer0 v0 (by decide) (by decide)⟩

/-- C7 (confirmed): outside the fitting phase both builders produce a
`SpawnOutput` with empty `weights_path`, and Recovery on an output with
empty `weights_path` performs no checkpoint load, no state-dict
application, and no artifact removal. -/
theorem C7_no_fitting_no_weights_no_load :
    (∀ t v o, t.state.fn ≠ TrainerFn.fitting → (collectDDP t v).2 = some o →
       o.weights_path = none) ∧
    (∀ t v o, t.state.fn ≠ TrainerFn.fitting → (collectTPU t v).2 = some o →
       o.weights_path = none) ∧
    (∀ io t o, o.weights_path = none →
       (∀ p, Event.loadCheckpoint p ∉ (recover io t o).1) ∧
       (∀ sd, Event.loadStateDict sd ∉ (recover io t o).1) ∧
       (∀ p, Event.removeCheckpoint p ∉ (recover io t o).1)) := by
  refine ⟨?_, ?_, ?_⟩
  · intro t v o hf h
    unfold collectDDP at h
    by_cases hg : t.global_rank ≠ 0 <;> simp [hg, hf] at h
    rw [← h]
  · intro t v o hf h
    unfold collectTPU at h
    by_cases hl : t.local_rank ≠ 0 <;> simp [hl, hf] at h
    rw [← h]
  · intro io t o hw
    unfold recover
    rw [hw]
    exact recoverTail_no_ckpt_events _ _ _

/-- C7 witness: the validating-phase builder output at rank 0 has no
weights path, and Recovery on it emits no load event. -/
theorem C7_no_fitting_no_weights_no_load_witness :
    outValidating.weights_path = none ∧
    (∀ p, Event.loadCheckpoint p ∉ (recover ioOk trainer0 outValidating).1) :=
  ⟨C7_no_fitting_no_weights_no_load.1 trainerValidating v0 outValidating
     (by decide) rfl,
   (C7_no_fitting_no_weights_no_load.2.2 ioOk trainer0 outValidating rfl).1⟩

/-- C3 (confirmed): when `weights_path` is present, Recovery first loads
the checkpoint at it; on a failed load the error propagates with no
state-dict application and no artifact removal (the trace is exactly the
load attempt); on a successful load the trace is load, then apply, then
remove — the removal strictly after the successful load — and any
resulting trainer carries the loaded parameters. -/
theorem C3_recovery_load_before_delete (io : CheckpointIO) (t : Trainer)
    (o : SpawnOutput) (wp : String) (hwp : o.weights_path = some wp) :
    (io.load_result wp = none →
       recover io t o =
         ([Event.loadCheckpoint wp], Except.error RecoverError.loadFailed) ∧
       (∀ p, Event.removeCheckpoint p ∉ (recover io t o).1) ∧
       (∀ sd, Event.loadStateDict sd ∉ (recover io t o).1)) ∧
    (∀ ckpt, io.load_result wp = some ckpt →
       (recover io t o).1.take 3 =
         [Event.loadCheckpoint wp, Event.loadStateDict ckpt,
          Event.removeCheckpoint wp] ∧
       (∀ t' q', (recover io t o).2 = Except.ok (t', q') →
          t'.module_state_dict = ckpt)) := by
  constructor
  · intro hl
    refine ⟨recover_eq_fail hwp hl, ?_, ?_⟩ <;> intro x <;>
      rw [recover_eq_fail hwp hl] <;> simp
  · intro ckpt hl
    constructor
    · rw [recover_eq_ok hwp hl]
      rfl
    · intro t' q' h
      rw [recover_eq_ok hwp hl] at h
      simpa using recoverTail_state_dict h

/-- C3 witness: concretely, a failing load on `outFitting` leaves only
the load attempt in the trace and propagates the error, while a
successful load applies `[5, 6]` before removing the artifact. -/
theorem C3_recovery_load_before_delete_witness :
    recover ioFail trainer0 outFitting =
      ([Event.loadCheckpoint "root/.temp.ckpt"],
       Except.error RecoverError.loadFailed) ∧
    (recover ioOk trainer0 outFitting).1.take 3 =
      [Event.loadCheckpoint "root/.temp.ckpt", Event.loadStateDict [5, 6],
       Event.removeCheckpoint "root/.temp.ckpt"] :=
  ⟨((C3_recovery_load_before_delete ioFail trainer0 outFitting
      "root/.temp.ckpt" rfl).1 rfl).1,
   ((C3_recovery_load_before_delete ioOk trainer0 outFitting
      "root/.temp.ckpt" rfl).2 [5, 6] rfl).1⟩

/-- C5 (confirmed): the default collector encodes the metrics dict
(tensors to numpy arrays) and the default restorer decodes it back
(numpy arrays to tensors); the round trip preserves the key sequence and
the numeric content of every value, and running the restorer on the
queue the collector produced pops exactly that dict, merges it into the
live metrics, and leaves the queue empty. -/
theorem C5_metrics_roundtrip (m : Metrics) :
    (decodeMetrics (encodeMetrics m)).map Prod.fst = m.map Prod.fst ∧
    List.Forall₂ (fun p q => p.1 = q.1 ∧ MVal.numData p.2 = MVal.numData q.2)
      (decodeMetrics (encodeMetrics m)) m ∧
    (∀ m0, get_from_queue m0 (add_to_queue m ([] : FakeQueue)) =
       some (dictUpdate m0 (decodeMetrics (encodeMetrics m)), [])) :=
  ⟨decode_encode_keys m, decode_encode_entries m, fun _ => rfl⟩

/-- C6 (counterexample): with a legacy `add_to_queue` override that
appends one extra dictionary and no `get_from_queue` override, the
builder puts two entries into `metrics_extra`, Recovery completes
successfully, and yet the queue is NOT fully drained afterwards — the
default restorer pops only the front entry. -/
theorem C6_counterexample :
    ((collectDDP trainerLegacyAdd v0).2.map (fun o =>
        (recover ioOk trainerLegacyAdd o).2.map
          (fun p => FakeQueue.isEmptyQ p.2))) = some (Except.ok false) := rfl

/-- C6 (amended): the default restorer pops exactly one entry — the
front — from `metrics_extra`, not all remaining ones; with no legacy
`get_from_queue` override a successful Recovery leaves exactly the tail
of `metrics_extra`, so the queue is fully drained precisely in the
configurations where one entry reaches the restorer — in particular in
the default configuration, where the builder (without a legacy
`add_to_queue` override) puts exactly the one default-collector entry. -/
theorem C6_default_restorer_pops_front :
    (∀ m d q, get_from_queue m (d :: q) =
       some (dictUpdate m (decodeMetrics d), q)) ∧
    (∀ t v o, t.add_override = none → (collectDDP t v).2 = some o →
       o.extra = [encodeMetrics t.callback_metrics]) ∧
    (∀ io t o t' q', t.get_override = none →
       (recover io t o).2 = Except.ok (t', q') → q' = o.extra.tail) ∧
    (∀ io t o t' q', t.get_override = none → o.extra.length = 1 →
       (recover io t o).2 = Except.ok (t', q') → q' = []) := by
  refine ⟨fun _ _ _ => rfl, ?_, ?_, ?_⟩
  · intro t v o ha h
    unfold collectDDP at h
    by_cases hg : t.global_rank ≠ 0 <;> simp [hg, buildExtra, ha] at h
    rw [← h]
    rfl
  · intro io t o t' q' hg h
    exact recover_ok_leftover hg h
  · intro io t o t' q' hg hlen h
    rw [recover_ok_leftover hg h]
    rcases hq : o.extra with _ | ⟨d, rest⟩ <;> rw [hq] at hlen <;>
      simp at hlen ⊢
    exact hlen

/-- C6 witness: the amended statement at the default configuration — the
rank-0 builder with no overrides puts exactly one entry, and recovering
`outFitting` into `trainer0` leaves the empty tail. -/
theorem C6_default_restorer_pops_front_witness :
    outFitting.extra = [encodeMetrics trainer0.callback_metrics] ∧
    ([] : FakeQueue) = outFitting.extra.tail :=
  ⟨C6_default_restorer_pops_front.2.1 trainer0 v0 outFitting rfl rfl,
   C6_default_restorer_pops_front.2.2.1 ioOk trainer0 outFitting
     trainerAfterRecover [] rfl rfl⟩

/-- C10 (confirmed): `_FakeQueue.get` on an empty queue raises (modelled
as `none`), so the default restorer `get_from_queue` has the implicit
precondition that `metrics_extra` is non-empty; the default collector
`add_to_queue` always appends exactly one entry, and after it has run on
an empty queue the restorer's pop succeeds and yields exactly the
collector's dictionary. -/
theorem C10_get_precondition :
    FakeQueue.get ([] : FakeQueue) = none ∧
    (∀ m0, get_from_queue m0 ([] : FakeQueue) = none) ∧
    (∀ m q, add_to_queue m q = q ++ [encodeMetrics m]) ∧
    (∀ m, FakeQueue.get (add_to_queue m ([] : FakeQueue)) =
       some (encodeMetrics m, [])) ∧
    (∀ m0 m, get_from_queue m0 (add_to_queue m ([] : FakeQueue)) =
       some (dictUpdate m0 (decodeMetrics (encodeMetrics m)), [])) :=
  ⟨rfl, fun _ => rfl, fun _ _ => rfl, fun _ => rfl, fun _ _ => rfl⟩

/-- C9 (confirmed): in the barrier variant every worker's trace
decomposes around a single "end-process" barrier: the enqueue appears
(exactly on the local-rank-0 producer) strictly before the barrier, the
barrier is passed by every worker before the wrapped function returns,
and the fixed 2-second grace sleep appears (exactly on the producer)
strictly after the barrier, as the final step. -/
theorem C9_barrier_ordering (pid lrk : Nat) (tr : Option Trainer) (v : Value) :
    ∃ evC,
      (wrappedTPU pid lrk tr v).1 =
        [Event.workerSetup pid, Event.runFunction] ++ evC ++
        (if lrk = 0 then [Event.enqueue] else []) ++
        [Event.barrier "end-process"] ++
        (if lrk = 0 then [Event.sleepSecs 2] else []) ∧
      Event.enqueue ∉ evC ∧
      (∀ s, Event.barrier s ∉ evC) ∧
      (∀ k, Event.sleepSecs k ∉ evC) := by
  cases tr with
  | none =>
    refine ⟨[], ?_, by simp, by simp, by simp⟩
    by_cases h : lrk = 0 <;> simp [wrappedTPU, h]
  | some t =>
    refine ⟨(collectTPU t v).1, ?_, (collectTPU_no_sync_events t v).1,
            (collectTPU_no_sync_events t v).2.1,
            (collectTPU_no_sync_events t v).2.2⟩
    by_cases h : lrk = 0 <;> simp [wrappedTPU, h]

/-- C8 (confirmed): with no orchestrator context, `launch` returns the
single raw value read from the Result Channel — the one the unique
local-rank-0 worker's function returned (already host-resident) — and
Recovery is not invoked (the outcome is the raw payload, untouched by
`recover`). -/
theorem C8_no_trainer_raw_result (io : CheckpointIO) (n : Nat)
    (lr : Nat → Nat) (tr : Nat → Trainer) (f : Nat → Value) (i0 : Nat)
    (_hn : 1 ≤ n) (hi0 : i0 < n) (hlr : lr i0 = 0)
    (huniq : ∀ i, i < n → lr i = 0 → i = i0)
    (hcpu : (f i0).device = "cpu") :
    launchDDP io n lr none tr f = LaunchOutcome.raw (Payload.raw (f i0)) := by
  have hfun : (fun i => (wrappedDDP i (lr i) none (f i)).2) =
      (fun i => if lr i = 0 then
        [movePayloadToCpu (payloadOfDDP none (f i))] else []) :=
    funext (fun i => wrappedDDP_writes i (lr i) none (f i))
  have hW : allWrites n lr (fun _ => none) f =
      [Payload.raw (moveValueToCpu (f i0))] := by
    unfold allWrites
    rw [hfun, flatMap_ite_singleton,
        filter_eq_singleton_of_nodup (fun i => lr i = 0)
          (List.nodup_range n) (List.mem_range.mpr hi0) hlr
          (fun i hi hp => huniq i (List.mem_range.mp hi) hp)]
    rfl
  have hmv : moveValueToCpu (f i0) = f i0 := by
    rcases hv : f i0 with ⟨d, c⟩
    rw [hv] at hcpu
    simp only [moveValueToCpu]
    rw [← hcpu]
  unfold launchDDP
  simp only [Option.map_none']
  rw [hW, hmv]
  rfl

/-- C8 witness: two workers, no orchestrator context — the caller gets
back exactly the value the local-rank-0 worker's function returned. -/
theorem C8_no_trainer_raw_result_witness :
    launchDDP ioOk 2 (fun i => i) none (fun _ => trainer0)
      (fun i => ⟨"cpu", (i : Int)⟩) =
      LaunchOutcome.raw (Payload.raw ⟨"cpu", 0⟩) :=
  C8_no_trainer_raw_result ioOk 2 (fun i => i) (fun _ => trainer0)
    (fun i => ⟨"cpu", (i : Int)⟩) 0 (by decide) (by decide) rfl
    (fun i _ h => h) rfl

/-- C1 (confirmed): with an orchestrator context supplied and a unique
local-rank-0 process whose trainer is at global rank 0 (and, for the
barrier variant, local rank 0), the Result Channel receives exactly one
write in either variant — a populated `SpawnOutput` from that producer —
and every other process writes nothing, so the orchestrator's single
blocking read observes exactly that one value. -/
theorem C1_single_producer_single_consumer (n : Nat) (lr : Nat → Nat)
    (g : Nat → Trainer) (f : Nat → Value) (i0 : Nat)
    (hi0 : i0 < n) (hlr : lr i0 = 0)
    (huniq : ∀ i, i < n → lr i = 0 → i = i0)
    (hglob : (g i0).global_rank = 0) (hloc : (g i0).local_rank = 0) :
    allWrites n lr (fun i => some (g i)) f =
      [movePayloadToCpu (Payload.spawn (collectDDP (g i0) (f i0)).2)] ∧
    ((collectDDP (g i0) (f i0)).2).isSome = true ∧
    (∀ i, i < n → i ≠ i0 → (wrappedDDP i (lr i) (some (g i)) (f i)).2 = []) ∧
    allWritesTPU n lr (fun i => some (g i)) f =
      [movePayloadToCpu (Payload.spawn (collectTPU (g i0) (f i0)).2)] ∧
    ((collectTPU (g i0) (f i0)).2).isSome = true ∧
    (∀ i, i < n → i ≠ i0 → (wrappedTPU i (lr i) (some (g i)) (f i)).2 = []) := by
  have hfilter := filter_eq_singleton_of_nodup (fun i => lr i = 0)
    (List.nodup_range n) (List.mem_range.mpr hi0) hlr
    (fun i hi hp => huniq i (List.mem_range.mp hi) hp)
  have hzero : ∀ i, i < n → i ≠ i0 → lr i ≠ 0 :=
    fun i hi hne h0 => hne (huniq i hi h0)
  refine ⟨?_, ?_, ?_, ?_, ?_, ?_⟩
  · unfold allWrites
    rw [show (fun i => (wrappedDDP i (lr i) (some (g i)) (f i)).2) =
          (fun i => if lr i = 0 then
            [movePayloadToCpu (payloadOfDDP (some (g i)) (f i))] else [])
        from funext (fun i => wrappedDDP_writes i (lr i) (some (g i)) (f i)),
        flatMap_ite_singleton, hfilter]
    rfl
  · simp [collectDDP, hglob]
  · intro i hi hne
    rw [wrappedDDP_writes]
    simp [hzero i hi hne]
  · unfold allWritesTPU
    rw [show (fun i => (wrappedTPU i (lr i) (some (g i)) (f i)).2) =
          (fun i => if lr i = 0 then
            [movePayloadToCpu (payloadOfTPU (some (g i)) (f i))] else [])
        from funext (fun i => wrappedTPU_writes i (lr i) (some (g i)) (f i)),
        flatMap_ite_singleton, hfilter]
    rfl
  · unfold collectTPU
    by_cases hf : (g i0).state.fn = TrainerFn.fitting <;> simp [hf, hloc]
  · intro i hi hne
    rw [wrappedTPU_writes]
    simp [hzero i hi hne]

/-- C1 witness: three workers with local ranks 0, 1, 2 and a rank-0
trainer on the producer — both variants write exactly one populated
`SpawnOutput` to the channel. -/
theorem C1_single_producer_single_consumer_witness :
    allWrites 3 (fun i => i) (fun _ => some trainer0)
        (fun i => ⟨"cpu", (i : Int)⟩) =
      [movePayloadToCpu (Payload.spawn (collectDDP trainer0 ⟨"cpu", 0⟩).2)] ∧
    ((collectDDP trainer0 ⟨"cpu", 0⟩).2).isSome = true :=
  ⟨(C1_single_producer_single_consumer 3 (fun i => i) (fun _ => trainer0)
      (fun i => ⟨"cpu", (i : Int)⟩) 0 (by decide) rfl (fun i _ h => h)
      rfl rfl).1,
   (C1_single_producer_single_consumer 3 (fun i => i) (fun _ => trainer0)
      (fun i => ⟨"cpu", (i : Int)⟩) 0 (by decide) rfl (fun i _ h => h)
      rfl rfl).2.1⟩

end PL
